import Mathlib

/-!
# confirm: a shallow embedding of `app.go`

The program is a small web service over one sqlite table.  Its effects (the
database file, the template files, the log, process exit) are made explicit:
every Go function becomes a function on a state `St`, and the result of a call
is an `Outcome` (normal return, `os.Exit`, or a run-time panic) paired with the
state it leaves behind.  The state carries a trace of the external calls made,
so that "issues no lookup" or "loads no template" are statements about it.

The two SQL statements of the program are read from their text, and run on
what the data source name designates: a database file, a file that is not a
database, or nothing, in which case sqlite creates the file, fails to, or
works on a database private to the connection.
-/

namespace Confirm

/-! ## Data model -/

/-- One row of the table `confirm(id, session_id UNIQUE, is_confirmed)`. -/
structure ConfirmRecord where
  id : Nat
  session_id : String
  is_confirmed : Bool
deriving DecidableEq, Repr

/-- What is found at a database path: an sqlite database (whose table `confirm`
exists or not), or a file that is not a database. -/
inductive File where
  | database (confirm : Option (List ConfirmRecord))
  | other
deriving DecidableEq, Repr

/-- The anonymous `struct { SessionID string }` the view handler passes to the
template. -/
structure Args where
  SessionID : String
deriving DecidableEq, Repr

/-- A parsed `*template.Template`.  `execute name data` is what executing the
template called `name` with `data` produces: the bytes it writes, and the error
it ends with, if any (an undefined name, a failing action). -/
structure Template where
  execute : String → Option Args → String × Option String

/-- The calls that leave the process, in the order they are made. -/
inductive Event where
  | urlQuery
  | sqlOpen (driverName dataSourceName : String)
  | dbExec (dataSourceName query : String)
  | dbQuery (dataSourceName query arg : String)
  | parseFiles (path : String)
  | executeTemplate (name : String) (data : Option Args)
  | logFatal (msg : String)
deriving DecidableEq, Repr

/-- The `http.ResponseWriter` of one request: the status (200 unless something
sets another), the body written so far, and whether writes to the connection
fail. -/
structure ResponseWriter where
  status : Nat
  body : String
  broken : Bool
deriving DecidableEq, Repr

/-- A response nothing has been written to. -/
def ResponseWriter.fresh : ResponseWriter := ⟨200, "", false⟩

/-- The decoded query string, `r.URL.Query()`: the key/value pairs in order.
It stands for the Go map from a key to the list of its values. -/
abbrev Values := List (String × String)

/-- The two-valued map index `val, ok := q[key]`. -/
def Values.index (q : Values) (key : String) : List String × Bool :=
  let val := (q.filter (fun kv => kv.1 = key)).map (fun kv => kv.2)
  (val, !val.isEmpty)

structure URL where
  Path : String
  query : Values
deriving DecidableEq, Repr

structure Request where
  Method : String
  URL : URL
deriving DecidableEq, Repr

/-- The handle `*sql.DB`. -/
structure DB where
  driverName : String
  dataSourceName : String
deriving DecidableEq, Repr

/-- The result set `*sql.Rows`: the rows not yet fetched, and the row the last
call of `Next` loaded (`none` before the first call). -/
structure Rows where
  pending : List (List String)
  lastcols : Option (List String)
  closed : Bool
deriving DecidableEq, Repr

/-! ## The process -/

/-- What opening a data source name does when the name designates no file:
sqlite creates a new, empty database file under it; or it cannot (a missing or
read-only directory); or the name asks for a database private to the
connection (`:memory:`, the empty name), and no file is involved. -/
inductive OnOpen where
  | create
  | fail
  | scratch
deriving DecidableEq, Repr

/-- The state outside the Go variables.  `disk name` is the file the data
source name designates, when there is one, and `opening name` says what
opening the name does when there is none.  `scratch name` is the private
database of the idle connection the pool keeps for a scratch name (`none`
when the pool has no idle connection), given by its table `confirm`. -/
structure St where
  disk : String → Option File
  opening : String → OnOpen
  scratch : String → Option (Option (List ConfirmRecord))
  templates : String → Option Template
  trace : List Event

/-- How a call ends. -/
inductive Outcome (α : Type) where
  | ok (a : α)
  | exit (code : Nat)
  | panic (msg : String)
deriving DecidableEq, Repr

/-- A Go function with effects. -/
def Proc (α : Type) : Type := St → Outcome α × St

def Proc.pure {α : Type} (a : α) : Proc α := fun s => (Outcome.ok a, s)

def Proc.bind {α β : Type} (x : Proc α) (f : α → Proc β) : Proc β := fun s =>
  match x s with
  | (Outcome.ok a, s1) => f a s1
  | (Outcome.exit c, s1) => (Outcome.exit c, s1)
  | (Outcome.panic m, s1) => (Outcome.panic m, s1)

instance : Monad Proc where
  pure := Proc.pure
  bind := Proc.bind

/-- Record a call in the trace. -/
def emit (e : Event) : Proc Unit := fun s =>
  (Outcome.ok (), { s with trace := s.trace ++ [e] })

/-- The function `log.Fatal` (and `log.Fatalf`): print, then `os.Exit(1)`. -/
def logFatal {α : Type} (msg : String) : Proc α := fun s =>
  (Outcome.exit 1, { s with trace := s.trace ++ [Event.logFatal msg] })

/-- A run-time panic of the Go runtime. -/
def goPanic {α : Type} (msg : String) : Proc α := fun s => (Outcome.panic msg, s)

/-! ## The libraries the program calls -/

/-- The method `r.URL.Query()`. -/
def Request.Query (r : Request) : Proc Values := do
  emit Event.urlQuery
  return r.URL.query

/-- The function `sql.Open`: it only checks that the driver is registered (the
program registers `sqlite3` by its import); no file is touched yet. -/
def sqlOpen (driverName dataSourceName : String) : Proc (Except String DB) := do
  emit (Event.sqlOpen driverName dataSourceName)
  if driverName = "sqlite3" then
    return Except.ok ⟨driverName, dataSourceName⟩
  else
    return Except.error ("sql: unknown driver " ++ driverName)

def createTableQuery : String :=
  "\n\tCREATE TABLE IF NOT EXISTS confirm(\n\t\tid INTEGER PRIMARY KEY AUTOINCREMENT,\n\t\tsession_id VARCHAR(255) NOT NULL UNIQUE,\n\t\tis_confirmed BOOLEAN DEFAULT 0\n\t);\n\t"

def selectQuery : String := "SELECT session_id FROM confirm WHERE session_id=?"

/-- The statements of SQL the model reads. -/
inductive Stmt where
  | createTable (ifNotExists : Bool) (table : String) (columns : List String)
  | select (column table whereColumn : String)
deriving DecidableEq, Repr

def isWordChar (c : Char) : Bool := c.isAlphanum || c = '_'

def flushWord (cur : List Char) : List String :=
  match cur with
  | [] => []
  | _ => [String.mk cur.reverse]

/-- Split a statement into words and punctuation, dropping white space; `cur`
is the word being read, last character first. -/
def sqlTokens : List Char → List Char → List String
  | [], cur => flushWord cur
  | c :: cs, cur =>
    if isWordChar c then sqlTokens cs (c :: cur)
    else if c.isWhitespace then flushWord cur ++ sqlTokens cs []
    else flushWord cur ++ String.singleton c :: sqlTokens cs []

/-- Keywords are read in any case. -/
def keyword (t : String) : String := String.mk (t.data.map Char.toUpper)

/-- The column names of a parenthesised list of column definitions, read from
just after the opening parenthesis (`depth` counts the parentheses opened
since, `start` says a definition begins here), and the tokens that follow
the closing parenthesis. -/
def columnNames : List String → Nat → Bool → Option (List String × List String)
  | [], _, _ => none
  | t :: ts, depth, start =>
    if t = "(" then columnNames ts (depth + 1) false
    else if t = ")" then
      match depth with
      | 0 => some ([], ts)
      | d + 1 => columnNames ts d false
    else if t = "," then columnNames ts depth (depth == 0)
    else if start then
      (columnNames ts depth false).map (fun r => (t :: r.1, r.2))
    else columnNames ts depth false

def endOfStatement (ts : List String) : Bool := ts = [] || ts = [";"]

def parseCreate (ifNotExists : Bool) (ts : List String) : Option Stmt :=
  match ts with
  | table :: "(" :: rest =>
    match columnNames rest 0 true with
    | some (cols, tail) =>
      if endOfStatement tail then some (Stmt.createTable ifNotExists table cols) else none
    | none => none
  | _ => none

/-- Read `CREATE TABLE [IF NOT EXISTS] t (...)` and
`SELECT c FROM t WHERE c2 = ?`; anything else is not read. -/
def parseSQL (query : String) : Option Stmt :=
  match sqlTokens query.data [] with
  | k1 :: k2 :: rest =>
    if keyword k1 = "CREATE" ∧ keyword k2 = "TABLE" then
      match rest with
      | k3 :: k4 :: k5 :: rest2 =>
        if keyword k3 = "IF" ∧ keyword k4 = "NOT" ∧ keyword k5 = "EXISTS" then
          parseCreate true rest2
        else parseCreate false rest
      | _ => parseCreate false rest
    else if keyword k1 = "SELECT" then
      match rest with
      | k3 :: table :: k5 :: whereColumn :: "=" :: "?" :: tail =>
        if keyword k3 = "FROM" ∧ keyword k5 = "WHERE" ∧ endOfStatement tail then
          some (Stmt.select k2 table whereColumn)
        else none
      | _ => none
    else none
  | _ => none

/-- The columns of the one table the model keeps. -/
def confirmColumns : List String := ["id", "session_id", "is_confirmed"]

/-- Replace what one name holds. -/
def setAt {α : Type} (f : String → α) (name : String) (a : α) : String → α :=
  fun p => if p = name then a else f p

/-- The database a connection works on: the database file, or a database
private to the connection; either is given by its table `confirm`. -/
inductive Conn where
  | file (confirm : Option (List ConfirmRecord))
  | scratch (confirm : Option (List ConfirmRecord))
deriving DecidableEq, Repr

/-- The connection a statement runs on.  A name that designates a database
file gives that file; a file that is not a database is refused.  A name that
designates nothing is opened as `opening` says: sqlite creates an empty
database file (no table yet), or fails, or the statement runs on the private
database of the idle connection of the pool, a new, empty one when the pool
has none. -/
def DB.conn (db : DB) (s : St) : Except String Conn × St :=
  match s.disk db.dataSourceName with
  | some (File.database confirm) => (Except.ok (Conn.file confirm), s)
  | some File.other => (Except.error "file is not a database", s)
  | none =>
    match s.opening db.dataSourceName with
    | OnOpen.create =>
      (Except.ok (Conn.file none),
        { s with disk := setAt s.disk db.dataSourceName (some (File.database none)) })
    | OnOpen.fail => (Except.error "unable to open database file", s)
    | OnOpen.scratch =>
      (Except.ok (Conn.scratch ((s.scratch db.dataSourceName).getD none)), s)

/-- The method `db.Exec`, for `CREATE TABLE` statements on the table `confirm`
with its three columns; other statements are outside the model.  The table is
created empty when the database has none; when it has one, the statement
changes nothing if it says `IF NOT EXISTS`, and fails otherwise. -/
def DB.Exec (db : DB) (query : String) : Proc (Except String Unit) := fun s =>
  let s1 : St := { s with trace := s.trace ++ [Event.dbExec db.dataSourceName query] }
  match parseSQL query with
  | some (Stmt.createTable ifNotExists table columns) =>
    if table = "confirm" ∧ columns = confirmColumns then
      match db.conn s1 with
      | (Except.error err, s2) => (Outcome.ok (Except.error err), s2)
      | (Except.ok (Conn.file (some _)), s2) =>
        if ifNotExists then (Outcome.ok (Except.ok ()), s2)
        else (Outcome.ok (Except.error "table confirm already exists"), s2)
      | (Except.ok (Conn.file none), s2) =>
        (Outcome.ok (Except.ok ()),
          { s2 with disk := setAt s2.disk db.dataSourceName (some (File.database (some []))) })
      | (Except.ok (Conn.scratch (some _)), s2) =>
        if ifNotExists then (Outcome.ok (Except.ok ()), s2)
        else (Outcome.ok (Except.error "table confirm already exists"), s2)
      | (Except.ok (Conn.scratch none), s2) =>
        (Outcome.ok (Except.ok ()),
          { s2 with scratch := setAt s2.scratch db.dataSourceName (some (some [])) })
    else
      (Outcome.ok (Except.error "statement not supported"), s1)
  | _ => (Outcome.ok (Except.error "statement not supported"), s1)

/-- The method `db.Query`, for the selection of `session_id` by `session_id`
on the table `confirm`, with one argument; other statements are outside the
model.  The result set holds the `session_id` column of the rows whose
`session_id` is the argument.  The query fails when the connection cannot be
opened or the database has no table `confirm`.  On a scratch name the result
set, never closed, keeps the connection out of the pool. -/
def DB.Query (db : DB) (query : String) (arg : String) : Proc (Except String Rows) := fun s =>
  let s1 : St := { s with trace := s.trace ++ [Event.dbQuery db.dataSourceName query arg] }
  match parseSQL query with
  | some (Stmt.select column table whereColumn) =>
    if table = "confirm" ∧ column = "session_id" ∧ whereColumn = "session_id" then
      match db.conn s1 with
      | (Except.error err, s2) => (Outcome.ok (Except.error err), s2)
      | (Except.ok (Conn.file (some rows)), s2) =>
        (Outcome.ok (Except.ok
          ⟨(rows.filter (fun rec => rec.session_id = arg)).map (fun rec => [rec.session_id]),
            none, false⟩), s2)
      | (Except.ok (Conn.file none), s2) =>
        (Outcome.ok (Except.error "no such table: confirm"), s2)
      | (Except.ok (Conn.scratch (some rows)), s2) =>
        (Outcome.ok (Except.ok
          ⟨(rows.filter (fun rec => rec.session_id = arg)).map (fun rec => [rec.session_id]),
            none, false⟩),
          { s2 with scratch := setAt s2.scratch db.dataSourceName none })
      | (Except.ok (Conn.scratch none), s2) =>
        (Outcome.ok (Except.error "no such table: confirm"),
          { s2 with scratch := setAt s2.scratch db.dataSourceName (some none) })
    else
      (Outcome.ok (Except.error "statement not supported"), s1)
  | _ => (Outcome.ok (Except.error "statement not supported"), s1)

/-- The method `rows.Next`: load the next row, or close the result set when
there is none. -/
def Rows.Next (rs : Rows) : Rows × Bool :=
  if rs.closed then (rs, false)
  else
    match rs.pending with
    | [] => ({ rs with closed := true }, false)
    | row :: rest => ({ rs with pending := rest, lastcols := some row }, true)

/-- The method `rows.Scan(&dest)` with one destination: the new value of
`dest` and the error.  Without a row loaded by `Next` it stores nothing. -/
def Rows.Scan (rs : Rows) (dest : String) : String × Option String :=
  if rs.closed then (dest, some "sql: Rows are closed")
  else
    match rs.lastcols with
    | none => (dest, some "sql: Scan called without calling Next")
    | some [col] => (col, none)
    | some cols =>
      (dest, some ("sql: expected " ++ toString cols.length ++
        " destination arguments in Scan, not 1"))

/-- The function `filepath.Join` of two clean, non-empty elements. -/
def filepathJoin (dir file : String) : String := dir ++ "/" ++ file

/-- The function `template.ParseFiles` on one path. -/
def templateParseFiles (path : String) : Proc (Except String Template) := fun s =>
  let s1 : St := { s with trace := s.trace ++ [Event.parseFiles path] }
  match s.templates path with
  | some t => (Outcome.ok (Except.ok t), s1)
  | none => (Outcome.ok (Except.error ("open " ++ path ++ ": no such file or directory")), s1)

/-- The method `tmpl.ExecuteTemplate(w, name, data)`: the output goes to `w`,
and the error is that of the template, or of the connection when the write
fails. -/
def Template.ExecuteTemplate (tmpl : Template) (w : ResponseWriter) (name : String)
    (data : Option Args) : Proc (ResponseWriter × Option String) := do
  emit (Event.executeTemplate name data)
  match tmpl.execute name data with
  | (out, some err) =>
    if w.broken then return (w, some err)
    else return ({ w with body := w.body ++ out }, some err)
  | (out, none) =>
    if w.broken then return (w, some "write: broken pipe")
    else return ({ w with body := w.body ++ out }, none)

/-! ## The program -/

def initDB (dbPath : String) : Proc DB := do
  let (res : Except String DB) ← sqlOpen "sqlite3" dbPath
  match res with
  | Except.error err => logFatal err
  | Except.ok db =>
    -- Create table ONLY if it does not exist
    let (res : Except String Unit) ← db.Exec createTableQuery
    match res with
    | Except.error err => logFatal err
    | Except.ok _ => return db

def loadTemplate (name : String) : Proc Template := do
  let (res : Except String Template) ← templateParseFiles (filepathJoin "templates" (name ++ ".html"))
  match res with
  | Except.error err => logFatal ("Template failed to execute: " ++ err)
  | Except.ok tmpl => return tmpl

def handleIndex (_db : DB) (w : ResponseWriter) (_r : Request) : Proc ResponseWriter := do
  let tmpl ← loadTemplate "index"
  let (w, err) ← tmpl.ExecuteTemplate w "index" none
  match err with
  | some err => logFatal ("Template failed to execute: " ++ err)
  | none => return w

def handleViewConfirmation (db : DB) (w : ResponseWriter) (r : Request) :
    Proc ResponseWriter := do
  let q ← r.Query
  let mut sessionID : String := ""
  let mut success := false
  -- Retrieve session ID from arguments
  let (val, ok) := q.index "s"
  if ok then
    match val with
    | [] => goPanic "index out of range [0] with length 0"
    | val0 :: _ =>
      -- Look up ID in database
      let (res : Except String Rows) ← db.Query selectQuery val0
      match res with
      | Except.error _ => logFatal "DB lookup for session ID failed!"
      | Except.ok rows =>
        sessionID := (rows.Scan sessionID).1
        success := true
  if success then
    -- Display confirmation page
    let tmpl ← loadTemplate "confirm"
    let args : Args := ⟨sessionID⟩
    let (w, err) ← tmpl.ExecuteTemplate w "confirm" (some args)
    match err with
    | some _ => logFatal "Error parsing confirm template!"
    | none => return w
  else
    -- Session ID invalid
    let tmpl ← loadTemplate "404"
    let (w, _) ← tmpl.ExecuteTemplate w "404" none
    return w

def handleConfirm (db : DB) (w : ResponseWriter) (r : Request) : Proc ResponseWriter := do
  let q ← r.Query
  let mut sessionID : String := ""
  let mut success := false
  -- Retrieve session ID from arguments
  let (val, ok) := q.index "s"
  if ok then
    match val with
    | [] => goPanic "index out of range [0] with length 0"
    | val0 :: _ =>
      -- Look up ID in database
      let (res : Except String Rows) ← db.Query selectQuery val0
      match res with
      | Except.error _ => logFatal "DB lookup for session ID failed!"
      | Except.ok rows =>
        sessionID := (rows.Scan sessionID).1
        success := true
  if success then
    -- Load confirm template from disk and parse it
    let tmpl ← loadTemplate "confirm"
    let (w, err) ← tmpl.ExecuteTemplate w "confirm" none
    match err with
    | some err => logFatal ("Template failed to execute: " ++ err)
    | none => return w
  else
    return w

/-! ## Observations on a run -/

/-- The events a call adds to the trace. -/
def Proc.events {α : Type} (x : Proc α) (s : St) : List Event :=
  (x s).2.trace.drop s.trace.length

/-- The session ids looked up in the store, in order. -/
def lookups (es : List Event) : List String :=
  es.filterMap (fun e => match e with
    | Event.dbQuery _ _ arg => some arg
    | _ => none)

/-- The template files loaded, in order. -/
def loaded (es : List Event) : List String :=
  es.filterMap (fun e => match e with
    | Event.parseFiles path => some path
    | _ => none)

/-- The templates executed into the response, each with the data passed. -/
def rendered (es : List Event) : List (String × Option Args) :=
  es.filterMap (fun e => match e with
    | Event.executeTemplate name data => some (name, data)
    | _ => none)

/-- The confirmation records a data source name holds: the rows of the table
`confirm` of its database file, none when there is no such file or table. -/
def records (file : Option File) : List ConfirmRecord :=
  match file with
  | some (File.database (some table)) => table
  | _ => []

/-- The messages of the fatal log calls. -/
def fatals (es : List Event) : List String :=
  es.filterMap (fun e => match e with
    | Event.logFatal msg => some msg
    | _ => none)

/-! ## Concrete inputs -/

/-- A template file that defines every name and prints the data it is given. -/
def echoTemplate : Template :=
  ⟨fun name data =>
    ("<" ++ name ++ ":" ++ (match data with
      | none => "nil"
      | some a => a.SessionID) ++ ">", none)⟩

/-- A template file that parses but whose execution fails after some output. -/
def failingTemplate : Template :=
  ⟨fun name _ => ("<html>", some ("html/template: " ++ name ++ " is undefined"))⟩

def exampleDB : DB := ⟨"sqlite3", "confirm.db"⟩

/-- A working directory where database files can be created, with no
directory `nodir`; `:memory:` and the empty name are scratch names. -/
def exampleOpening (name : String) : OnOpen :=
  if name = ":memory:" ∨ name = "" then OnOpen.scratch
  else if name = "nodir/confirm.db" then OnOpen.fail
  else OnOpen.create

/-- A state whose database path holds `file` and whose template directory has
the three templates, the 404 page being `t404`. -/
def exampleState (file : Option File) (t404 : Template) : St :=
  { disk := fun p => if p = "confirm.db" then file else none
    opening := exampleOpening
    scratch := fun _ => none
    templates := fun p =>
      if p = "templates/index.html" then some echoTemplate
      else if p = "templates/confirm.html" then some echoTemplate
      else if p = "templates/404.html" then some t404
      else none
    trace := [] }

def exampleRequest (path : String) (query : Values) : Request := ⟨"GET", ⟨path, query⟩⟩

def exampleTable : List ConfirmRecord := [⟨1, "abc123", false⟩, ⟨2, "zzz", true⟩]

/-! ## Running the primitives -/

@[simp]
theorem run_bind {α β : Type} (x : Proc α) (f : α → Proc β) (s : St) :
    (x >>= f) s =
      match x s with
      | (Outcome.ok a, s1) => f a s1
      | (Outcome.exit c, s1) => (Outcome.exit c, s1)
      | (Outcome.panic m, s1) => (Outcome.panic m, s1) := rfl

@[simp]
theorem run_pure {α : Type} (a : α) (s : St) :
    (pure a : Proc α) s = (Outcome.ok a, s) := rfl

@[simp]
theorem run_emit (e : Event) (s : St) :
    emit e s = (Outcome.ok (), { s with trace := s.trace ++ [e] }) := rfl

@[simp]
theorem run_logFatal {α : Type} (msg : String) (s : St) :
    (logFatal msg : Proc α) s =
      (Outcome.exit 1, { s with trace := s.trace ++ [Event.logFatal msg] }) := rfl

@[simp]
theorem run_goPanic {α : Type} (msg : String) (s : St) :
    (goPanic msg : Proc α) s = (Outcome.panic msg, s) := rfl

@[simp]
theorem run_Query (r : Request) (s : St) :
    r.Query s = (Outcome.ok r.URL.query, { s with trace := s.trace ++ [Event.urlQuery] }) := rfl

theorem parse_selectQuery :
    parseSQL selectQuery = some (Stmt.select "session_id" "confirm" "session_id") := by
  decide

theorem parse_createTableQuery :
    parseSQL createTableQuery =
      some (Stmt.createTable true "confirm" ["id", "session_id", "is_confirmed"]) := by
  decide

/-- The lookup on a database file that has the table: the rows that match, and
the state changed in its trace only. -/
theorem run_lookup (db : DB) (arg : String) (s : St) (table : List ConfirmRecord)
    (hq : s.disk db.dataSourceName = some (File.database (some table))) :
    db.Query selectQuery arg s =
      (Outcome.ok (Except.ok
        ⟨(table.filter (fun rec => rec.session_id = arg)).map (fun rec => [rec.session_id]),
          none, false⟩),
        { s with trace := s.trace ++ [Event.dbQuery db.dataSourceName selectQuery arg] }) := by
  simp [DB.Query, parse_selectQuery, DB.conn, hq]

/-- A key that is present has a first value: `val[0]` never panics. -/
theorem index_ok_cons (q : Values) (key : String) (h : (q.index key).2 = true) :
    ∃ v vs, q.index key = (v :: vs, true) := by
  unfold Values.index at *
  cases hl : (q.filter (fun kv => kv.1 = key)).map (fun kv => kv.2) with
  | nil => simp [hl] at h
  | cons v vs => exact ⟨v, vs, by simp⟩

/-- Once `Next` has loaded a row, `Scan` stores its column. -/
theorem scan_after_next (row : String) (rest : List (List String)) (dest : String) :
    (Rows.Scan (Rows.Next ⟨[row] :: rest, none, false⟩).1 dest) = (row, none) := rfl

/-! ## The /view handler -/

/-- C1, as stated, fails: on `/view?s=abc123` over a store with an empty table
and a loadable confirm template, the data passed to the template has
`SessionID = ""`, not `"abc123"`. -/
theorem view_session_id_not_query_value :
    rendered ((handleViewConfirmation exampleDB ResponseWriter.fresh
        (exampleRequest "/view" [("s", "abc123")])).events
        (exampleState (some (File.database (some []))) echoTemplate))
      = [("confirm", some ⟨""⟩)] ∧
    rendered ((handleViewConfirmation exampleDB ResponseWriter.fresh
        (exampleRequest "/view" [("s", "abc123")])).events
        (exampleState (some (File.database (some []))) echoTemplate))
      ≠ [("confirm", some ⟨"abc123"⟩)] := by
  decide

/-- C1, amended: for every `/view` request with an `s` parameter and every store
on which the lookup does not fail, the handler renders the "confirm" template
with a data object that has a `SessionID` field; when the store holds no row
with that session id, the field is the empty string. -/
theorem view_renders_confirm_session_field (db : DB) (w : ResponseWriter) (r : Request)
    (s : St) (v : String) (vs : List String) (table : List ConfirmRecord) (tmpl : Template)
    (hs : r.URL.query.index "s" = (v :: vs, true))
    (hq : s.disk db.dataSourceName = some (File.database (some table)))
    (ht : s.templates "templates/confirm.html" = some tmpl) :
    (∃ sid : String,
      rendered ((handleViewConfirmation db w r).events s) = [("confirm", some ⟨sid⟩)]) ∧
    ((∀ rec ∈ table, rec.session_id ≠ v) →
      rendered ((handleViewConfirmation db w r).events s) = [("confirm", some ⟨""⟩)]) := by
  have key : rendered ((handleViewConfirmation db w r).events s) = [("confirm", some ⟨""⟩)] := by
    rcases hx : tmpl.execute "confirm" (some ⟨""⟩) with ⟨out, _ | err⟩ <;>
    cases hb : w.broken <;>
    simp [Proc.events, handleViewConfirmation, hs, DB.Query, parse_selectQuery, DB.conn, hq, Rows.Scan, ht, loadTemplate,
      templateParseFiles, filepathJoin, Template.ExecuteTemplate, hx, hb, rendered]
  exact ⟨⟨"", key⟩, fun _ => key⟩

theorem view_renders_confirm_session_field_witness :
    (∃ sid : String,
      rendered ((handleViewConfirmation exampleDB ResponseWriter.fresh
          (exampleRequest "/view" [("s", "nobody")])).events
          (exampleState (some (File.database (some exampleTable))) echoTemplate))
        = [("confirm", some ⟨sid⟩)]) ∧
    ((∀ rec ∈ exampleTable, rec.session_id ≠ "nobody") →
      rendered ((handleViewConfirmation exampleDB ResponseWriter.fresh
          (exampleRequest "/view" [("s", "nobody")])).events
          (exampleState (some (File.database (some exampleTable))) echoTemplate))
        = [("confirm", some ⟨""⟩)]) :=
  view_renders_confirm_session_field exampleDB ResponseWriter.fresh
    (exampleRequest "/view" [("s", "nobody")])
    (exampleState (some (File.database (some exampleTable))) echoTemplate)
    "nobody" [] exampleTable echoTemplate rfl rfl rfl

/-- C2: when the `s` parameter of a `/view` request has the value `v`, the
lookup does not fail and the store holds no row with `session_id = v`, the
result set is empty, the scan leaves the unset variable unchanged, and the
handler renders the "confirm" template with `SessionID = ""`; the response
body is that rendering when the execution succeeds. -/
theorem view_missing_row_empty_session_id (db : DB) (w : ResponseWriter) (r : Request)
    (s : St) (v : String) (vs : List String) (table : List ConfirmRecord) (tmpl : Template)
    (hs : r.URL.query.index "s" = (v :: vs, true))
    (hq : s.disk db.dataSourceName = some (File.database (some table)))
    (hrow : ∀ rec ∈ table, rec.session_id ≠ v)
    (ht : s.templates "templates/confirm.html" = some tmpl) :
    (db.Query selectQuery v s).1 = Outcome.ok (Except.ok ⟨[], none, false⟩) ∧
    (Rows.Scan ⟨[], none, false⟩ "").1 = "" ∧
    lookups ((handleViewConfirmation db w r).events s) = [v] ∧
    rendered ((handleViewConfirmation db w r).events s) = [("confirm", some ⟨""⟩)] ∧
    (∀ out, tmpl.execute "confirm" (some ⟨""⟩) = (out, none) → w.broken = false →
      (handleViewConfirmation db w r s).1 = Outcome.ok { w with body := w.body ++ out }) := by
  refine ⟨?_, rfl, ?_, ?_, ?_⟩
  · have hnil : table.filter (fun rec => rec.session_id = v) = [] := by
      rw [List.filter_eq_nil_iff]
      intro rec hmem
      simpa using hrow rec hmem
    simp [DB.Query, parse_selectQuery, DB.conn, hq, hnil]
  · rcases hx : tmpl.execute "confirm" (some ⟨""⟩) with ⟨out, _ | err⟩ <;>
    cases hb : w.broken <;>
    simp [Proc.events, handleViewConfirmation, hs, DB.Query, parse_selectQuery, DB.conn, hq, Rows.Scan, ht, loadTemplate,
      templateParseFiles, filepathJoin, Template.ExecuteTemplate, hx, hb, lookups]
  · rcases hx : tmpl.execute "confirm" (some ⟨""⟩) with ⟨out, _ | err⟩ <;>
    cases hb : w.broken <;>
    simp [Proc.events, handleViewConfirmation, hs, DB.Query, parse_selectQuery, DB.conn, hq, Rows.Scan, ht, loadTemplate,
      templateParseFiles, filepathJoin, Template.ExecuteTemplate, hx, hb, rendered]
  · intro out hx hb
    simp [handleViewConfirmation, hs, DB.Query, parse_selectQuery, DB.conn, hq, Rows.Scan, ht, loadTemplate,
      templateParseFiles, filepathJoin, Template.ExecuteTemplate, hx, hb]

theorem view_missing_row_empty_session_id_witness :
    rendered ((handleViewConfirmation exampleDB ResponseWriter.fresh
        (exampleRequest "/view" [("s", "nobody")])).events
        (exampleState (some (File.database (some exampleTable))) echoTemplate))
      = [("confirm", some ⟨""⟩)] ∧
    (handleViewConfirmation exampleDB ResponseWriter.fresh
        (exampleRequest "/view" [("s", "nobody")])
        (exampleState (some (File.database (some exampleTable))) echoTemplate)).1
      = Outcome.ok ⟨200, "<confirm:>", false⟩ :=
  have h := view_missing_row_empty_session_id exampleDB ResponseWriter.fresh
    (exampleRequest "/view" [("s", "nobody")])
    (exampleState (some (File.database (some exampleTable))) echoTemplate)
    "nobody" [] exampleTable echoTemplate rfl rfl (by decide) rfl
  ⟨h.2.2.2.1, h.2.2.2.2 "<confirm:>" rfl rfl⟩

/-- C3: a `/view` request without an `s` parameter issues no store lookup,
neither loads nor renders the "confirm" template, and, the 404 template being
loadable, renders the "404" template with no data into the response. -/
theorem view_without_param_renders_404 (db : DB) (w : ResponseWriter) (r : Request) (s : St)
    (hs : (r.URL.query.index "s").2 = false) :
    lookups ((handleViewConfirmation db w r).events s) = [] ∧
    "templates/confirm.html" ∉ loaded ((handleViewConfirmation db w r).events s) ∧
    (∀ data, ("confirm", data) ∉ rendered ((handleViewConfirmation db w r).events s)) ∧
    (∀ tmpl, s.templates "templates/404.html" = some tmpl →
      rendered ((handleViewConfirmation db w r).events s) = [("404", none)] ∧
      (handleViewConfirmation db w r s).1 =
        Outcome.ok (if w.broken then w
          else { w with body := w.body ++ (tmpl.execute "404" none).1 })) := by
  cases ht : s.templates "templates/404.html" with
  | none =>
    simp [Proc.events, handleViewConfirmation, hs, ht, loadTemplate, templateParseFiles,
      filepathJoin, lookups, loaded, rendered]
  | some tmpl =>
    rcases hx : tmpl.execute "404" none with ⟨out, _ | err⟩ <;>
    cases hb : w.broken <;>
    simp [Proc.events, handleViewConfirmation, hs, ht, loadTemplate, templateParseFiles,
      filepathJoin, Template.ExecuteTemplate, hx, hb, lookups, loaded, rendered]

theorem view_without_param_renders_404_witness :
    rendered ((handleViewConfirmation exampleDB ResponseWriter.fresh
        (exampleRequest "/view" [("t", "abc123")])).events
        (exampleState (some (File.database (some exampleTable))) echoTemplate))
      = [("404", none)] ∧
    (handleViewConfirmation exampleDB ResponseWriter.fresh
        (exampleRequest "/view" [("t", "abc123")])
        (exampleState (some (File.database (some exampleTable))) echoTemplate)).1
      = Outcome.ok ⟨200, "<404:nil>", false⟩ :=
  (view_without_param_renders_404 exampleDB ResponseWriter.fresh
    (exampleRequest "/view" [("t", "abc123")])
    (exampleState (some (File.database (some exampleTable))) echoTemplate)
    rfl).2.2.2 echoTemplate rfl

/-! ## The /confirm handler -/

/-- C4: a `/confirm` request with an `s` parameter of any value, on a store on
which the lookup does not fail (with or without a matching row), looks the
value up and renders the "confirm" template with no data (nil); the response
body is that rendering when the execution succeeds. -/
theorem confirm_with_param_renders_confirm_nil (db : DB) (w : ResponseWriter) (r : Request)
    (s : St) (v : String) (vs : List String) (table : List ConfirmRecord) (tmpl : Template)
    (hs : r.URL.query.index "s" = (v :: vs, true))
    (hq : s.disk db.dataSourceName = some (File.database (some table)))
    (ht : s.templates "templates/confirm.html" = some tmpl) :
    lookups ((handleConfirm db w r).events s) = [v] ∧
    rendered ((handleConfirm db w r).events s) = [("confirm", none)] ∧
    (∀ out, tmpl.execute "confirm" none = (out, none) → w.broken = false →
      (handleConfirm db w r s).1 = Outcome.ok { w with body := w.body ++ out }) := by
  refine ⟨?_, ?_, ?_⟩
  · rcases hx : tmpl.execute "confirm" none with ⟨out, _ | err⟩ <;>
    cases hb : w.broken <;>
    simp [Proc.events, handleConfirm, hs, DB.Query, parse_selectQuery, DB.conn, hq, ht, loadTemplate,
      templateParseFiles, filepathJoin, Template.ExecuteTemplate, hx, hb, lookups]
  · rcases hx : tmpl.execute "confirm" none with ⟨out, _ | err⟩ <;>
    cases hb : w.broken <;>
    simp [Proc.events, handleConfirm, hs, DB.Query, parse_selectQuery, DB.conn, hq, ht, loadTemplate,
      templateParseFiles, filepathJoin, Template.ExecuteTemplate, hx, hb, rendered]
  · intro out hx hb
    simp [handleConfirm, hs, DB.Query, parse_selectQuery, DB.conn, hq, ht, loadTemplate,
      templateParseFiles, filepathJoin, Template.ExecuteTemplate, hx, hb]

theorem confirm_with_param_renders_confirm_nil_witness :
    rendered ((handleConfirm exampleDB ResponseWriter.fresh
        (exampleRequest "/confirm" [("s", "")])).events
        (exampleState (some (File.database (some exampleTable))) echoTemplate))
      = [("confirm", none)] ∧
    (handleConfirm exampleDB ResponseWriter.fresh
        (exampleRequest "/confirm" [("s", "")])
        (exampleState (some (File.database (some exampleTable))) echoTemplate)).1
      = Outcome.ok ⟨200, "<confirm:nil>", false⟩ :=
  have h := confirm_with_param_renders_confirm_nil exampleDB ResponseWriter.fresh
    (exampleRequest "/confirm" [("s", "")])
    (exampleState (some (File.database (some exampleTable))) echoTemplate)
    "" [] exampleTable echoTemplate rfl rfl rfl
  ⟨h.2.1, h.2.2 "<confirm:nil>" rfl rfl⟩

/-- C5: a `/confirm` request without an `s` parameter only reads the query
string: it issues no store lookup, loads no template, renders nothing, and
returns with the response untouched, so a fresh response keeps its empty body
and its status 200. -/
theorem confirm_without_param_writes_nothing (db : DB) (w : ResponseWriter) (r : Request)
    (s : St) (hs : (r.URL.query.index "s").2 = false) :
    (handleConfirm db w r).events s = [Event.urlQuery] ∧
    lookups ((handleConfirm db w r).events s) = [] ∧
    loaded ((handleConfirm db w r).events s) = [] ∧
    rendered ((handleConfirm db w r).events s) = [] ∧
    (handleConfirm db w r s).1 = Outcome.ok w ∧
    (handleConfirm db ResponseWriter.fresh r s).1 = Outcome.ok ⟨200, "", false⟩ := by
  simp [Proc.events, handleConfirm, hs, lookups, loaded, rendered, ResponseWriter.fresh]

theorem confirm_without_param_writes_nothing_witness :
    (handleConfirm exampleDB ResponseWriter.fresh (exampleRequest "/confirm" [])).events
        (exampleState (some (File.database (some exampleTable))) echoTemplate)
      = [Event.urlQuery] ∧
    (handleConfirm exampleDB ResponseWriter.fresh (exampleRequest "/confirm" [])
        (exampleState (some (File.database (some exampleTable))) echoTemplate)).1
      = Outcome.ok ⟨200, "", false⟩ :=
  have h := confirm_without_param_writes_nothing exampleDB ResponseWriter.fresh
    (exampleRequest "/confirm" [])
    (exampleState (some (File.database (some exampleTable))) echoTemplate) rfl
  ⟨h.1, h.2.2.2.2.2⟩

/-! ## The index handler -/

/-- C6: the index handler never reads the query string nor the store, its
outcome and its calls are the same for every request, database handle and
store content, and, the index template being loadable, it renders the "index"
template with no data. -/
theorem index_renders_index_only (db : DB) (w : ResponseWriter) (r : Request) (s : St) :
    Event.urlQuery ∉ (handleIndex db w r).events s ∧
    lookups ((handleIndex db w r).events s) = [] ∧
    (∀ (db2 : DB) (r2 : Request) (disk2 : String → Option File),
      (handleIndex db2 w r2 { s with disk := disk2 }).1 = (handleIndex db w r s).1 ∧
      (handleIndex db2 w r2).events { s with disk := disk2 } = (handleIndex db w r).events s) ∧
    (∀ tmpl, s.templates "templates/index.html" = some tmpl →
      rendered ((handleIndex db w r).events s) = [("index", none)] ∧
      (∀ out, tmpl.execute "index" none = (out, none) → w.broken = false →
        (handleIndex db w r s).1 = Outcome.ok { w with body := w.body ++ out })) := by
  cases ht : s.templates "templates/index.html" with
  | none =>
    simp [Proc.events, handleIndex, ht, loadTemplate, templateParseFiles,
      filepathJoin, lookups, rendered]
  | some tmpl =>
    rcases hx : tmpl.execute "index" none with ⟨out, _ | err⟩ <;>
    cases hb : w.broken <;>
    simp [Proc.events, handleIndex, ht, loadTemplate, templateParseFiles,
      filepathJoin, Template.ExecuteTemplate, hx, hb, lookups, rendered]

theorem index_renders_index_only_witness :
    rendered ((handleIndex exampleDB ResponseWriter.fresh
        (exampleRequest "/" [("s", "abc123")])).events
        (exampleState (some (File.database (some exampleTable))) echoTemplate))
      = [("index", none)] ∧
    (handleIndex exampleDB ResponseWriter.fresh (exampleRequest "/" [("s", "abc123")])
        (exampleState (some (File.database (some exampleTable))) echoTemplate)).1
      = Outcome.ok ⟨200, "<index:nil>", false⟩ :=
  have h := (index_renders_index_only exampleDB ResponseWriter.fresh
    (exampleRequest "/" [("s", "abc123")])
    (exampleState (some (File.database (some exampleTable))) echoTemplate)).2.2.2
      echoTemplate rfl
  ⟨h.1, h.2 "<index:nil>" rfl rfl⟩

/-! ## Across the handlers -/

/-- C7: for every request and any two store states on which the lookup does
not fail, the `/view` handler ends the same way and makes the same calls
(same template, same data) on both, and so does the `/confirm` handler; each
of them loads the "confirm" template exactly when the query string has an
`s` parameter. -/
theorem outcome_independent_of_store (db : DB) (w : ResponseWriter) (r : Request) (s : St)
    (disk2 : String → Option File) (table1 table2 : List ConfirmRecord)
    (h1 : s.disk db.dataSourceName = some (File.database (some table1)))
    (h2 : disk2 db.dataSourceName = some (File.database (some table2))) :
    (handleViewConfirmation db w r { s with disk := disk2 }).1
        = (handleViewConfirmation db w r s).1 ∧
    (handleViewConfirmation db w r).events { s with disk := disk2 }
        = (handleViewConfirmation db w r).events s ∧
    (handleConfirm db w r { s with disk := disk2 }).1 = (handleConfirm db w r s).1 ∧
    (handleConfirm db w r).events { s with disk := disk2 } = (handleConfirm db w r).events s ∧
    ("templates/confirm.html" ∈ loaded ((handleViewConfirmation db w r).events s)
        ↔ (r.URL.query.index "s").2 = true) ∧
    ("templates/confirm.html" ∈ loaded ((handleConfirm db w r).events s)
        ↔ (r.URL.query.index "s").2 = true) := by
  cases hok : (r.URL.query.index "s").2 with
  | false =>
    have view : ∀ s0 : St, s0.templates = s.templates → s0.trace = s.trace →
        (handleViewConfirmation db w r s0).1 = (handleViewConfirmation db w r s).1 ∧
        (handleViewConfirmation db w r).events s0 = (handleViewConfirmation db w r).events s ∧
        "templates/confirm.html" ∉ loaded ((handleViewConfirmation db w r).events s) := by
      intro s0 e1 e2
      cases ht : s.templates "templates/404.html" with
      | none =>
        simp [Proc.events, handleViewConfirmation, hok, e1, e2, ht, loadTemplate,
          templateParseFiles, filepathJoin, loaded]
      | some tmpl =>
        rcases hx : tmpl.execute "404" none with ⟨out, _ | err⟩ <;>
        cases hb : w.broken <;>
        simp [Proc.events, handleViewConfirmation, hok, e1, e2, ht, loadTemplate,
          templateParseFiles, filepathJoin, Template.ExecuteTemplate, hx, hb, loaded]
    obtain ⟨v1, v2, v3⟩ := view { s with disk := disk2 } rfl rfl
    refine ⟨v1, v2, ?_, ?_, ?_, ?_⟩ <;>
    simp_all [Proc.events, handleConfirm, loaded]
  | true =>
    obtain ⟨v, vs, hs⟩ := index_ok_cons _ _ hok
    cases ht : s.templates "templates/confirm.html" with
    | none =>
      simp [Proc.events, handleViewConfirmation, handleConfirm, hs, DB.Query, parse_selectQuery, DB.conn, h1, h2,
        Rows.Scan, ht, loadTemplate, templateParseFiles, filepathJoin, loaded]
    | some tmpl =>
      rcases hx : tmpl.execute "confirm" (some ⟨""⟩) with ⟨out, _ | err⟩ <;>
      rcases hy : tmpl.execute "confirm" none with ⟨out2, _ | err2⟩ <;>
      cases hb : w.broken <;>
      simp [Proc.events, handleViewConfirmation, handleConfirm, hs, DB.Query, parse_selectQuery, DB.conn, h1, h2,
        Rows.Scan, ht, loadTemplate, templateParseFiles, filepathJoin,
        Template.ExecuteTemplate, hx, hy, hb, loaded]

theorem outcome_independent_of_store_witness :
    (handleViewConfirmation exampleDB ResponseWriter.fresh
        (exampleRequest "/view" [("s", "abc123")])
        { exampleState (some (File.database (some exampleTable))) echoTemplate with
          disk := fun _ => some (File.database (some [])) }).1
      = (handleViewConfirmation exampleDB ResponseWriter.fresh
        (exampleRequest "/view" [("s", "abc123")])
        (exampleState (some (File.database (some exampleTable))) echoTemplate)).1 ∧
    (handleConfirm exampleDB ResponseWriter.fresh
        (exampleRequest "/view" [("s", "abc123")])
        { exampleState (some (File.database (some exampleTable))) echoTemplate with
          disk := fun _ => some (File.database (some [])) }).1
      = (handleConfirm exampleDB ResponseWriter.fresh
        (exampleRequest "/view" [("s", "abc123")])
        (exampleState (some (File.database (some exampleTable))) echoTemplate)).1 :=
  have h := outcome_independent_of_store exampleDB ResponseWriter.fresh
    (exampleRequest "/view" [("s", "abc123")])
    (exampleState (some (File.database (some exampleTable))) echoTemplate)
    (fun _ => some (File.database (some []))) exampleTable [] rfl rfl
  ⟨h.1, h.2.2.1⟩

/-- C8, at the failing input: on a `/view` request without an `s` parameter,
with a 404 template that loads but whose execution ends in an error, the
handler logs nothing fatal and returns normally, the partial output left in
the response.  The same failure on the "confirm" branch exits the process. -/
theorem view_404_execution_error_returns :
    (failingTemplate.execute "404" none).2 = some "html/template: 404 is undefined" ∧
    (handleViewConfirmation exampleDB ResponseWriter.fresh (exampleRequest "/view" [])
        (exampleState (some (File.database (some exampleTable))) failingTemplate)).1
      = Outcome.ok ⟨200, "<html>", false⟩ ∧
    fatals ((handleViewConfirmation exampleDB ResponseWriter.fresh
        (exampleRequest "/view" [])).events
        (exampleState (some (File.database (some exampleTable))) failingTemplate)) = [] ∧
    (handleViewConfirmation exampleDB ResponseWriter.fresh
        (exampleRequest "/view" [("s", "abc123")])
        { exampleState (some (File.database (some exampleTable))) echoTemplate with
          templates := fun _ => some failingTemplate }).1
      = Outcome.exit 1 := by
  decide

/-- The disk after a lookup-driven handler: as before, unless the data source
name designated nothing and sqlite could create a file there; then the lookup
has left an empty database, without any table, and the process has exited. -/
theorem view_disk_after (db : DB) (w : ResponseWriter) (r : Request) (s : St) :
    (handleViewConfirmation db w r s).2.disk = s.disk ∨
    ((handleViewConfirmation db w r s).1 = Outcome.exit 1 ∧
      s.disk db.dataSourceName = none ∧
      (handleViewConfirmation db w r s).2.disk =
        setAt s.disk db.dataSourceName (some (File.database none))) := by
  cases hok : (r.URL.query.index "s").2 with
  | false =>
    left
    cases ht : s.templates "templates/404.html" with
    | none =>
      simp [handleViewConfirmation, hok, ht, loadTemplate, templateParseFiles, filepathJoin]
    | some tmpl =>
      rcases hx : tmpl.execute "404" none with ⟨out, _ | err⟩ <;>
      cases hb : w.broken <;>
      simp [handleViewConfirmation, hok, ht, loadTemplate, templateParseFiles, filepathJoin,
        Template.ExecuteTemplate, hx, hb]
  | true =>
    obtain ⟨v, vs, hs⟩ := index_ok_cons _ _ hok
    have render : ∀ (s0 : St) (sid : String), s0.disk = s.disk →
        ((do
          let tmpl ← loadTemplate "confirm"
          let res ← tmpl.ExecuteTemplate w "confirm" (some ⟨sid⟩)
          match res.2 with
          | some _ => logFatal "Error parsing confirm template!"
          | none => pure res.1 : Proc ResponseWriter) s0).2.disk = s.disk := by
      intro s0 sid h0
      cases ht : s0.templates "templates/confirm.html" with
      | none => simp [ht, h0, loadTemplate, templateParseFiles, filepathJoin]
      | some tmpl =>
        rcases hx : tmpl.execute "confirm" (some ⟨sid⟩) with ⟨out, _ | err⟩ <;>
        cases hb : w.broken <;>
        simp [ht, h0, loadTemplate, templateParseFiles, filepathJoin,
          Template.ExecuteTemplate, hx, hb]
    rcases hd : s.disk db.dataSourceName with _ | ((_ | table) | _)
    · cases ho : s.opening db.dataSourceName with
      | create =>
        right
        simp [handleViewConfirmation, hs, DB.Query, parse_selectQuery, DB.conn, hd, ho]
      | fail =>
        left
        simp [handleViewConfirmation, hs, DB.Query, parse_selectQuery, DB.conn, hd, ho]
      | scratch =>
        left
        rcases hsc : s.scratch db.dataSourceName with _ | (_ | table)
        · simp [handleViewConfirmation, hs, DB.Query, parse_selectQuery, DB.conn, hd, ho, hsc]
        · simp [handleViewConfirmation, hs, DB.Query, parse_selectQuery, DB.conn, hd, ho, hsc]
        · have h := render
            { s with
              scratch := setAt s.scratch db.dataSourceName none
              trace := s.trace ++ [Event.urlQuery,
                Event.dbQuery db.dataSourceName selectQuery v] } "" rfl
          simpa [handleViewConfirmation, hs, DB.Query, parse_selectQuery, DB.conn, hd, ho, hsc,
            Rows.Scan] using h
    · left
      simp [handleViewConfirmation, hs, DB.Query, parse_selectQuery, DB.conn, hd]
    · left
      have h := render
        { s with trace := s.trace ++ [Event.urlQuery,
            Event.dbQuery db.dataSourceName selectQuery v] } "" rfl
      simpa [handleViewConfirmation, hs, DB.Query, parse_selectQuery, DB.conn, hd,
        Rows.Scan] using h
    · left
      simp [handleViewConfirmation, hs, DB.Query, parse_selectQuery, DB.conn, hd]

/-- The same account of the disk after the `/confirm` handler. -/
theorem confirm_disk_after (db : DB) (w : ResponseWriter) (r : Request) (s : St) :
    (handleConfirm db w r s).2.disk = s.disk ∨
    ((handleConfirm db w r s).1 = Outcome.exit 1 ∧
      s.disk db.dataSourceName = none ∧
      (handleConfirm db w r s).2.disk =
        setAt s.disk db.dataSourceName (some (File.database none))) := by
  cases hok : (r.URL.query.index "s").2 with
  | false =>
    left
    simp [handleConfirm, hok]
  | true =>
    obtain ⟨v, vs, hs⟩ := index_ok_cons _ _ hok
    have render : ∀ (s0 : St), s0.disk = s.disk →
        ((do
          let tmpl ← loadTemplate "confirm"
          let res ← tmpl.ExecuteTemplate w "confirm" none
          match res.2 with
          | some err => logFatal ("Template failed to execute: " ++ err)
          | none => pure res.1 : Proc ResponseWriter) s0).2.disk = s.disk := by
      intro s0 h0
      cases ht : s0.templates "templates/confirm.html" with
      | none => simp [ht, h0, loadTemplate, templateParseFiles, filepathJoin]
      | some tmpl =>
        rcases hx : tmpl.execute "confirm" none with ⟨out, _ | err⟩ <;>
        cases hb : w.broken <;>
        simp [ht, h0, loadTemplate, templateParseFiles, filepathJoin,
          Template.ExecuteTemplate, hx, hb]
    rcases hd : s.disk db.dataSourceName with _ | ((_ | table) | _)
    · cases ho : s.opening db.dataSourceName with
      | create =>
        right
        simp [handleConfirm, hs, DB.Query, parse_selectQuery, DB.conn, hd, ho]
      | fail =>
        left
        simp [handleConfirm, hs, DB.Query, parse_selectQuery, DB.conn, hd, ho]
      | scratch =>
        left
        rcases hsc : s.scratch db.dataSourceName with _ | (_ | table)
        · simp [handleConfirm, hs, DB.Query, parse_selectQuery, DB.conn, hd, ho, hsc]
        · simp [handleConfirm, hs, DB.Query, parse_selectQuery, DB.conn, hd, ho, hsc]
        · have h := render
            { s with
              scratch := setAt s.scratch db.dataSourceName none
              trace := s.trace ++ [Event.urlQuery,
                Event.dbQuery db.dataSourceName selectQuery v] } rfl
          simpa [handleConfirm, hs, DB.Query, parse_selectQuery, DB.conn, hd, ho, hsc]
            using h
    · left
      simp [handleConfirm, hs, DB.Query, parse_selectQuery, DB.conn, hd]
    · left
      have h := render
        { s with trace := s.trace ++ [Event.urlQuery,
            Event.dbQuery db.dataSourceName selectQuery v] } rfl
      simpa [handleConfirm, hs, DB.Query, parse_selectQuery, DB.conn, hd] using h
    · left
      simp [handleConfirm, hs, DB.Query, parse_selectQuery, DB.conn, hd]

/-- The index handler leaves the disk as it was. -/
theorem index_disk_after (db : DB) (w : ResponseWriter) (r : Request) (s : St) :
    (handleIndex db w r s).2.disk = s.disk := by
  cases ht : s.templates "templates/index.html" with
  | none => simp [handleIndex, ht, loadTemplate, templateParseFiles, filepathJoin]
  | some tmpl =>
    rcases hx : tmpl.execute "index" none with ⟨out, _ | err⟩ <;>
    cases hb : w.broken <;>
    simp [handleIndex, ht, loadTemplate, templateParseFiles, filepathJoin,
      Template.ExecuteTemplate, hx, hb]

/-- An empty database put where there was nothing holds no more records. -/
theorem records_setAt_empty (disk : String → Option File) (name : String)
    (h : disk name = none) (p : String) :
    records (setAt disk name (some (File.database none)) p) = records (disk p) := by
  by_cases hp : p = name
  · subst hp
    simp [setAt, records, h]
  · simp [setAt, hp]

/-- C9: no handler changes the store: after the index, `/view` or `/confirm`
handler has run, however it ends, every data source name holds the
confirmation records (id, session id, confirmed flag) it held before, so no
record is inserted and no confirmed flag is changed; every file that existed
is as it was; and when the handler returns, the whole disk is as it was. -/
theorem handlers_leave_store_unchanged (db : DB) (w : ResponseWriter) (r : Request) (s : St) :
    (∀ name, records ((handleIndex db w r s).2.disk name) = records (s.disk name)) ∧
    (∀ name, records ((handleViewConfirmation db w r s).2.disk name)
      = records (s.disk name)) ∧
    (∀ name, records ((handleConfirm db w r s).2.disk name) = records (s.disk name)) ∧
    (∀ name, s.disk name ≠ none →
      (handleIndex db w r s).2.disk name = s.disk name ∧
      (handleViewConfirmation db w r s).2.disk name = s.disk name ∧
      (handleConfirm db w r s).2.disk name = s.disk name) ∧
    (∀ w2, (handleIndex db w r s).1 = Outcome.ok w2 →
      (handleIndex db w r s).2.disk = s.disk) ∧
    (∀ w2, (handleViewConfirmation db w r s).1 = Outcome.ok w2 →
      (handleViewConfirmation db w r s).2.disk = s.disk) ∧
    (∀ w2, (handleConfirm db w r s).1 = Outcome.ok w2 →
      (handleConfirm db w r s).2.disk = s.disk) := by
  have hi := index_disk_after db w r s
  have hv := view_disk_after db w r s
  have hc := confirm_disk_after db w r s
  refine ⟨?_, ?_, ?_, ?_, ?_, ?_, ?_⟩
  · intro name
    rw [hi]
  · intro name
    rcases hv with h | ⟨_, hnone, h⟩
    · rw [h]
    · rw [h]
      exact records_setAt_empty s.disk db.dataSourceName hnone name
  · intro name
    rcases hc with h | ⟨_, hnone, h⟩
    · rw [h]
    · rw [h]
      exact records_setAt_empty s.disk db.dataSourceName hnone name
  · intro name hname
    refine ⟨by rw [hi], ?_, ?_⟩
    · rcases hv with h | ⟨_, hnone, h⟩
      · rw [h]
      · have hne : name ≠ db.dataSourceName := fun e => hname (e ▸ hnone)
        rw [h]
        simp [setAt, hne]
    · rcases hc with h | ⟨_, hnone, h⟩
      · rw [h]
      · have hne : name ≠ db.dataSourceName := fun e => hname (e ▸ hnone)
        rw [h]
        simp [setAt, hne]
  · intro _ _
    exact hi
  · intro w2 hw
    rcases hv with h | ⟨hexit, _, _⟩
    · exact h
    · rw [hexit] at hw
      cases hw
  · intro w2 hw
    rcases hc with h | ⟨hexit, _, _⟩
    · exact h
    · rw [hexit] at hw
      cases hw

theorem handlers_leave_store_unchanged_witness :
    (handleViewConfirmation exampleDB ResponseWriter.fresh
        (exampleRequest "/view" [("s", "abc123")])
        (exampleState (some (File.database (some exampleTable))) echoTemplate)).2.disk
      = (exampleState (some (File.database (some exampleTable))) echoTemplate).disk ∧
    (handleConfirm exampleDB ResponseWriter.fresh
        (exampleRequest "/confirm" [("s", "abc123")])
        (exampleState (some (File.database (some exampleTable))) echoTemplate)).2.disk "confirm.db"
      = some (File.database (some exampleTable)) :=
  have h := handlers_leave_store_unchanged exampleDB ResponseWriter.fresh
    (exampleRequest "/view" [("s", "abc123")])
    (exampleState (some (File.database (some exampleTable))) echoTemplate)
  have h2 := handlers_leave_store_unchanged exampleDB ResponseWriter.fresh
    (exampleRequest "/confirm" [("s", "abc123")])
    (exampleState (some (File.database (some exampleTable))) echoTemplate)
  ⟨h.2.2.2.2.2.1 ⟨200, "<confirm:>", false⟩ (by decide),
    (h2.2.2.2.1 "confirm.db" (by decide)).2.2⟩

/-- A lookup through a name that designates nothing, where a file can be
created, leaves an empty database there and ends the process. -/
theorem lookup_on_missing_file :
    (handleViewConfirmation exampleDB ResponseWriter.fresh
        (exampleRequest "/view" [("s", "abc123")]) (exampleState none echoTemplate)).1
      = Outcome.exit 1 ∧
    (handleViewConfirmation exampleDB ResponseWriter.fresh
        (exampleRequest "/view" [("s", "abc123")])
        (exampleState none echoTemplate)).2.disk "confirm.db"
      = some (File.database none) := by
  decide

/-! ## Store initialisation -/

/-- How `initDB` ends and what it leaves on disk, by what the path designates
(or, for a path that designates nothing, by how it is opened). -/
theorem initDB_cases (dbPath : String) (s : St) :
    (s.disk dbPath = none → s.opening dbPath = OnOpen.create →
      (initDB dbPath s).1 = Outcome.ok ⟨"sqlite3", dbPath⟩ ∧
      (initDB dbPath s).2.disk = setAt s.disk dbPath (some (File.database (some [])))) ∧
    (s.disk dbPath = none → s.opening dbPath = OnOpen.fail →
      (initDB dbPath s).1 = Outcome.exit 1 ∧ (initDB dbPath s).2.disk = s.disk) ∧
    (s.disk dbPath = none → s.opening dbPath = OnOpen.scratch →
      (initDB dbPath s).1 = Outcome.ok ⟨"sqlite3", dbPath⟩ ∧
      (initDB dbPath s).2.disk = s.disk ∧
      ∃ table, (initDB dbPath s).2.scratch dbPath = some (some table)) ∧
    (s.disk dbPath = some (File.database none) →
      (initDB dbPath s).1 = Outcome.ok ⟨"sqlite3", dbPath⟩ ∧
      (initDB dbPath s).2.disk = setAt s.disk dbPath (some (File.database (some [])))) ∧
    (∀ table, s.disk dbPath = some (File.database (some table)) →
      (initDB dbPath s).1 = Outcome.ok ⟨"sqlite3", dbPath⟩ ∧
      (initDB dbPath s).2.disk = s.disk) ∧
    (s.disk dbPath = some File.other →
      (initDB dbPath s).1 = Outcome.exit 1 ∧ (initDB dbPath s).2.disk = s.disk) := by
  refine ⟨?_, ?_, ?_, ?_, ?_, ?_⟩
  · intro hd ho
    constructor
    · simp [initDB, sqlOpen, DB.Exec, parse_createTableQuery, confirmColumns, DB.conn, hd, ho]
    · funext p
      by_cases hp : p = dbPath <;>
      simp [initDB, sqlOpen, DB.Exec, parse_createTableQuery, confirmColumns, DB.conn, hd, ho,
        setAt, hp]
  · intro hd ho
    simp [initDB, sqlOpen, DB.Exec, parse_createTableQuery, confirmColumns, DB.conn, hd, ho]
  · intro hd ho
    rcases hsc : s.scratch dbPath with _ | (_ | table) <;>
    simp [initDB, sqlOpen, DB.Exec, parse_createTableQuery, confirmColumns, DB.conn, hd, ho,
      hsc, setAt]
  · intro hd
    simp [initDB, sqlOpen, DB.Exec, parse_createTableQuery, confirmColumns, DB.conn, hd]
  · intro table hd
    simp [initDB, sqlOpen, DB.Exec, parse_createTableQuery, confirmColumns, DB.conn, hd]
  · intro hd
    simp [initDB, sqlOpen, DB.Exec, parse_createTableQuery, confirmColumns, DB.conn, hd]

/-- The way names are opened is not changed by `initDB`. -/
theorem initDB_opening (dbPath : String) (s : St) :
    (initDB dbPath s).2.opening = s.opening := by
  rcases hd : s.disk dbPath with _ | ((_ | table) | _)
  · cases ho : s.opening dbPath with
    | create =>
      simp [initDB, sqlOpen, DB.Exec, parse_createTableQuery, confirmColumns, DB.conn, hd, ho]
    | fail =>
      simp [initDB, sqlOpen, DB.Exec, parse_createTableQuery, confirmColumns, DB.conn, hd, ho]
    | scratch =>
      rcases hsc : s.scratch dbPath with _ | (_ | table) <;>
      simp [initDB, sqlOpen, DB.Exec, parse_createTableQuery, confirmColumns, DB.conn, hd, ho,
        hsc]
  · simp [initDB, sqlOpen, DB.Exec, parse_createTableQuery, confirmColumns, DB.conn, hd]
  · simp [initDB, sqlOpen, DB.Exec, parse_createTableQuery, confirmColumns, DB.conn, hd]
  · simp [initDB, sqlOpen, DB.Exec, parse_createTableQuery, confirmColumns, DB.conn, hd]

/-- An empty table put where there was no table holds no more records. -/
theorem records_setAt_table (disk : String → Option File) (name : String)
    (h : records (disk name) = []) (p : String) :
    records (setAt disk name (some (File.database (some []))) p) = records (disk p) := by
  by_cases hp : p = name
  · subst hp
    rw [h]
    simp [setAt, records]
  · simp [setAt, hp]

/-- The statement without `IF NOT EXISTS` is not idempotent: on a database
that has the table it fails. -/
theorem create_without_if_not_exists_fails :
    (DB.Exec exampleDB "CREATE TABLE confirm(id INTEGER, session_id TEXT, is_confirmed BOOLEAN)"
        (exampleState (some (File.database (some exampleTable))) echoTemplate)).1
      = Outcome.ok (Except.error "table confirm already exists") := by
  rfl

/-- C10: store initialisation is non-destructive and idempotent.  Whatever the
path designates, `initDB` leaves the confirmation records of every data source
name as they were.  Run on a path that designates nothing and where a file
can be created, it returns a handle and leaves there a database whose confirm
table has zero rows, every other name as it was; where no file can be created
it ends the process and leaves the disk as it was.  Run on a database that
already holds the confirm table, with any rows, it returns a handle and leaves
every file unchanged.  And whenever a first run returns, a second run on the
same path returns the same handle and changes nothing on disk. -/
theorem initDB_idempotent (dbPath : String) (s : St) :
    (∀ name, records ((initDB dbPath s).2.disk name) = records (s.disk name)) ∧
    (s.disk dbPath = none → s.opening dbPath = OnOpen.create →
      (initDB dbPath s).1 = Outcome.ok ⟨"sqlite3", dbPath⟩ ∧
      (initDB dbPath s).2.disk dbPath = some (File.database (some [])) ∧
      ∀ p, p ≠ dbPath → (initDB dbPath s).2.disk p = s.disk p) ∧
    (s.disk dbPath = none → s.opening dbPath = OnOpen.fail →
      (initDB dbPath s).1 = Outcome.exit 1 ∧ (initDB dbPath s).2.disk = s.disk) ∧
    (∀ table, s.disk dbPath = some (File.database (some table)) →
      (initDB dbPath s).1 = Outcome.ok ⟨"sqlite3", dbPath⟩ ∧
      (initDB dbPath s).2.disk = s.disk) ∧
    (∀ db, (initDB dbPath s).1 = Outcome.ok db →
      (initDB dbPath (initDB dbPath s).2).1 = Outcome.ok db ∧
      (initDB dbPath (initDB dbPath s).2).2.disk = (initDB dbPath s).2.disk) := by
  obtain ⟨hcreate, hfail, hscratch, hempty, htable, hother⟩ := initDB_cases dbPath s
  have again : ∀ table, (initDB dbPath s).2.disk dbPath = some (File.database (some table)) →
      (initDB dbPath (initDB dbPath s).2).1 = Outcome.ok ⟨"sqlite3", dbPath⟩ ∧
      (initDB dbPath (initDB dbPath s).2).2.disk = (initDB dbPath s).2.disk :=
    fun table h => (initDB_cases dbPath (initDB dbPath s).2).2.2.2.2.1 table h
  refine ⟨?_, ?_, hfail, htable, ?_⟩
  · intro name
    rcases hd : s.disk dbPath with _ | ((_ | table) | _)
    · cases ho : s.opening dbPath with
      | create =>
        rw [(hcreate hd ho).2]
        exact records_setAt_table s.disk dbPath (by simp [hd, records]) name
      | fail => rw [(hfail hd ho).2]
      | scratch => rw [(hscratch hd ho).2.1]
    · rw [(hempty hd).2]
      exact records_setAt_table s.disk dbPath (by simp [hd, records]) name
    · rw [(htable table hd).2]
    · rw [(hother hd).2]
  · intro hd ho
    obtain ⟨h1, h2⟩ := hcreate hd ho
    refine ⟨h1, by simp [h2, setAt], ?_⟩
    intro p hp
    simp [h2, setAt, hp]
  · intro db hdb
    rcases hd : s.disk dbPath with _ | ((_ | table) | _)
    · cases ho : s.opening dbPath with
      | create =>
        obtain ⟨h1, h2⟩ := hcreate hd ho
        have hdb2 : db = ⟨"sqlite3", dbPath⟩ := by
          rw [h1] at hdb
          cases hdb
          rfl
        subst hdb2
        exact again [] (by simp [h2, setAt])
      | fail =>
        rw [(hfail hd ho).1] at hdb
        cases hdb
      | scratch =>
        obtain ⟨h1, h2, _⟩ := hscratch hd ho
        have hdb2 : db = ⟨"sqlite3", dbPath⟩ := by
          rw [h1] at hdb
          cases hdb
          rfl
        subst hdb2
        have hd2 : (initDB dbPath s).2.disk dbPath = none := by rw [h2, hd]
        have ho2 : (initDB dbPath s).2.opening dbPath = OnOpen.scratch := by
          rw [initDB_opening, ho]
        obtain ⟨g1, g2, _⟩ := (initDB_cases dbPath (initDB dbPath s).2).2.2.1 hd2 ho2
        exact ⟨g1, g2⟩
    · obtain ⟨h1, h2⟩ := hempty hd
      have hdb2 : db = ⟨"sqlite3", dbPath⟩ := by
        rw [h1] at hdb
        cases hdb
        rfl
      subst hdb2
      exact again [] (by simp [h2, setAt])
    · obtain ⟨h1, h2⟩ := htable table hd
      have hdb2 : db = ⟨"sqlite3", dbPath⟩ := by
        rw [h1] at hdb
        cases hdb
        rfl
      subst hdb2
      exact again table (by rw [h2, hd])
    · rw [(hother hd).1] at hdb
      cases hdb

theorem initDB_idempotent_witness :
    (initDB "confirm.db" (exampleState none echoTemplate)).2.disk "confirm.db"
      = some (File.database (some [])) ∧
    ((initDB "nodir/confirm.db" (exampleState none echoTemplate)).1 = Outcome.exit 1 ∧
      (initDB "nodir/confirm.db" (exampleState none echoTemplate)).2.disk
        = (exampleState none echoTemplate).disk) ∧
    (initDB "confirm.db"
        (exampleState (some (File.database (some exampleTable))) echoTemplate)).2.disk
      = (exampleState (some (File.database (some exampleTable))) echoTemplate).disk ∧
    (initDB "confirm.db" (initDB "confirm.db" (exampleState none echoTemplate)).2).2.disk
      = (initDB "confirm.db" (exampleState none echoTemplate)).2.disk :=
  ⟨((initDB_idempotent "confirm.db" (exampleState none echoTemplate)).2.1 rfl rfl).2.1,
    (initDB_idempotent "nodir/confirm.db" (exampleState none echoTemplate)).2.2.1 rfl rfl,
    ((initDB_idempotent "confirm.db"
      (exampleState (some (File.database (some exampleTable))) echoTemplate)).2.2.2.1
        exampleTable rfl).2,
    ((initDB_idempotent "confirm.db" (exampleState none echoTemplate)).2.2.2.2
      ⟨"sqlite3", "confirm.db"⟩
      ((initDB_idempotent "confirm.db" (exampleState none echoTemplate)).2.1 rfl rfl).1).2⟩

end Confirm
